import Mathlib

/- Verification development for the calendar/concert tool server
   (src/wise_examples/simple_calendar.py).

   Modelling conventions, fixed once here:
   * Instants are integers: the number of seconds since an arbitrary epoch,
     interpreted in UTC.  Python `datetime` comparison and `timedelta`
     arithmetic become integer comparison and addition; `timedelta(hours=3)`
     is 10800 seconds.
   * A date or time string is modelled by `IsoStr`: either a well-formed
     string denoting a value (for a date, its day count; for a time, its
     second-of-day; for a full date-time, the instant) or a malformed
     non-empty string.  `datetime.fromisoformat` on the concatenation
     `f"{date}T{time}"` succeeds exactly when both parts are well formed,
     and then denotes `86400 * days + seconds`; on a malformed input it
     raises `ValueError`, modelled by `Except.error TMError.formatError`.
     An absent JSON key is `Option.none`; Python code that tests a string
     for truthiness treats an absent key and an empty string alike, and
     where that matters the empty-string case is represented by `none`.
   * JSON objects are structures of `Option` fields (a `none` field is an
     absent key); JSON arrays are lists; an absent array key that the code
     defaults to `[]` is modelled as the plain list.  JSON numbers carried
     around untouched (price bounds) are `Rat`.
   * Exceptions are `Except`: `TMError.formatError` for `ValueError` from
     `datetime.fromisoformat`, `TMError.indexError` for a list index out of
     range.
   * The HTTP boundary of the concert search is an oracle
     `api : TMQuery → ApiResult` passed as a parameter; the orchestrator
     returns, next to its result list, the list of queries it issued, so
     that "no network request" and "exactly one query" are stated as facts
     about that list. -/

/-- A vendor date/time string: well formed and denoting an integer value,
or malformed (non-empty, so truthy in Python, but rejected by
`datetime.fromisoformat`). -/
inductive IsoStr where
  | valid (v : Int) : IsoStr
  | malformed : IsoStr
deriving DecidableEq, Repr

/-- Exceptions raised by the Python code that the orchestrator's
`except Exception` handler can catch. -/
inductive TMError where
  | formatError : TMError
  | indexError : TMError
deriving DecidableEq, Repr

/-- `datetime.fromisoformat(f"{date_str}T{time_str}")` followed by
`.replace(tzinfo=timezone.utc)`: succeeds iff both parts are well formed,
and denotes the instant `86400 * days + seconds` (UTC). -/
def fromisoformat_parts : IsoStr → IsoStr → Except TMError Int
  | IsoStr.valid d, IsoStr.valid t => Except.ok (86400 * d + t)
  | _, _ => Except.error TMError.formatError

/-- `datetime.fromisoformat` on a single full date-time string, as used by
the `e100_h100_get_ticketmaster_concerts` tool (the `Z`→`+00:00` rewrite is
absorbed into the denotation of a well-formed string). -/
def datetime_fromisoformat : IsoStr → Except TMError Int
  | IsoStr.valid t => Except.ok t
  | IsoStr.malformed => Except.error TMError.formatError

/-- The `dates` object of a Ticketmaster event, flattened:
`dates.start.localDate`, `dates.start.localTime`, `dates.end.localDate`,
`dates.end.localTime`.  An absent `dates` or `dates.start` or `dates.end`
object is the same as all its fields being absent, which is how the Python
`event.get("dates", {}).get("start", {})` chain reads it. -/
structure TMDates where
  startLocalDate : Option IsoStr
  startLocalTime : Option IsoStr
  endLocalDate : Option IsoStr
  endLocalTime : Option IsoStr
deriving DecidableEq, Repr

/-- One entry of a Ticketmaster event's `_embedded.venues` array, with the
nested `address.line1`, `city.name`, `state.stateCode`, `postalCode`,
`country.countryCode` lookups flattened (each is absent when any link of
its chain is absent). -/
structure TMVenue where
  name : Option String
  addressLine1 : Option String
  cityName : Option String
  stateCode : Option String
  postalCode : Option String
  countryCode : Option String
deriving DecidableEq, Repr

/-- One entry of `classifications`, with `segment.name`, `genre.name`,
`subGenre.name` flattened. -/
structure TMClassification where
  segmentName : Option String
  genreName : Option String
  subGenreName : Option String
deriving DecidableEq, Repr

/-- One entry of `priceRanges`. -/
structure TMPriceRange where
  min : Option Rat
  max : Option Rat
  currency : Option String
deriving DecidableEq, Repr

/-- The `sales.public` object, flattened. -/
structure TMPublicSale where
  startDateTime : Option String
  endDateTime : Option String
  startTBD : Option Bool
deriving DecidableEq, Repr

/-- A raw Ticketmaster event, restricted to the keys
`simple_calendar.py` reads.  `embedded_venues = none` means the event has
no `_embedded` object or its `_embedded` object has no `venues` key;
`some l` means `_embedded.venues` is present with entries `l` (possibly
empty).  `classifications` and `priceRanges` absent is the `[]` the code
defaults them to. -/
structure TMEvent where
  name : Option String
  url : Option String
  dates : TMDates
  embedded_venues : Option (List TMVenue)
  classifications : List TMClassification
  priceRanges : List TMPriceRange
  sales_public : TMPublicSale
deriving DecidableEq, Repr

/-- `parse_event_datetime` (simple_calendar.py lines 152-175).  Returns the
`(start, end)` pair of optional instants; raises `formatError` when
`datetime.fromisoformat` rejects a string.  The start time string defaults
to `"00:00:00"` (second 0) when `localTime` is absent; the fallback end is
start + 3 hours (10800 s) unless both `end.localDate` and `end.localTime`
are present and truthy. -/
def parse_event_datetime (event : TMEvent) : Except TMError (Option Int × Option Int) :=
  match event.dates.startLocalDate with
  | none => Except.ok (none, none)
  | some date_str =>
    let time_str := event.dates.startLocalTime.getD (IsoStr.valid 0)
    match fromisoformat_parts date_str time_str with
    | Except.error e => Except.error e
    | Except.ok start_datetime =>
      match event.dates.endLocalDate, event.dates.endLocalTime with
      | some end_date_str, some end_time_str =>
        match fromisoformat_parts end_date_str end_time_str with
        | Except.error e => Except.error e
        | Except.ok end_datetime => Except.ok (some start_datetime, some end_datetime)
      | _, _ => Except.ok (some start_datetime, some (start_datetime + 10800))

/-- A price field of the extracted detail record: either the number copied
from the first price range, or the literal string `"N/A"`. -/
inductive NumOrNA where
  | num (v : Rat) : NumOrNA
  | na : NumOrNA
deriving DecidableEq, Repr

/-- The flat detail record built by `extract_event_details`.
`concert_start`/`concert_end` hold the parsed instants; `some t` stands for
the Python `isoformat()` rendering of instant `t` and `none` for the
`"N/A"` sentinel. -/
structure EventDetails where
  name : String
  url : String
  concert_start : Option Int
  concert_end : Option Int
  venue_name : String
  venue_address : String
  category : String
  genre : String
  subgenre : String
  price_min : NumOrNA
  price_max : NumOrNA
  currency : String
  onsale_start : String
  onsale_end : String
  sale_status : Bool
deriving DecidableEq, Repr

/-- The five `if venue.get(...):` address components, kept when present and
non-empty (Python string truthiness). -/
def truthy_string_parts (fields : List (Option String)) : List String :=
  fields.filterMap (fun o =>
    match o with
    | some s => if s = "" then none else some s
    | none => none)

/-- `extract_event_details` (simple_calendar.py lines 177-244).  Note the
venue branch: whenever `_embedded.venues` is present the code indexes
`[0]` unconditionally, so a present-but-empty venue list raises
`IndexError`; the `"N/A"` venue branch runs only when the key is absent. -/
def extract_event_details (event : TMEvent) : Except TMError EventDetails := do
  let name := event.name.getD "N/A"
  let url := event.url.getD "N/A"
  let se ← parse_event_datetime event
  let venue_pair ←
    match event.embedded_venues with
    | some [] => Except.error TMError.indexError
    | some (venue :: _) =>
      let address_parts := truthy_string_parts
        [venue.addressLine1, venue.cityName, venue.stateCode,
         venue.postalCode, venue.countryCode]
      Except.ok (venue.name.getD "N/A",
        if address_parts.isEmpty then "N/A" else String.intercalate ", " address_parts)
    | none => Except.ok ("N/A", "N/A")
  let class_triple :=
    match event.classifications with
    | c :: _ => (c.segmentName.getD "N/A", c.genreName.getD "N/A", c.subGenreName.getD "N/A")
    | [] => ("N/A", "N/A", "N/A")
  let price_triple :=
    match event.priceRanges with
    | pr :: _ =>
      ((match pr.min with | some v => NumOrNA.num v | none => NumOrNA.na),
       (match pr.max with | some v => NumOrNA.num v | none => NumOrNA.na),
       pr.currency.getD "USD")
    | [] => (NumOrNA.na, NumOrNA.na, "N/A")
  Except.ok {
    name := name
    url := url
    concert_start := se.1
    concert_end := se.2
    venue_name := venue_pair.1
    venue_address := venue_pair.2
    category := class_triple.1
    genre := class_triple.2.1
    subgenre := class_triple.2.2
    price_min := price_triple.1
    price_max := price_triple.2.1
    currency := price_triple.2.2
    onsale_start := event.sales_public.startDateTime.getD "N/A"
    onsale_end := event.sales_public.endDateTime.getD "N/A"
    sale_status := event.sales_public.startTBD.getD false
  }

/-- `event_falls_within_time_ranges` (simple_calendar.py lines 247-268):
true iff some range `(range_start, range_end)` satisfies
`range_start <= event_start and event_end <= range_end`; false when the
parsed start or end is `None`; propagates the parse exception. -/
def event_falls_within_time_ranges (event : TMEvent)
    (time_ranges : List (Int × Int)) : Except TMError Bool := do
  let se ← parse_event_datetime event
  match se.1, se.2 with
  | some event_start, some event_end =>
    Except.ok (time_ranges.any (fun r => decide (r.1 ≤ event_start ∧ event_end ≤ r.2)))
  | _, _ => Except.ok false

/-- The API key constant at the top of simple_calendar.py. -/
def TICKETMASTER_API_KEY : String := "gpMqpLqs1VDGhY1mgRhT0UOSh1EgHSM1"

/-- The query-parameter dictionary the concert search sends to
`GET {TICKETMASTER_API_BASE}/events` (simple_calendar.py lines 301-313).
`genreName = none` means the key is absent. -/
structure TMQuery where
  apikey : String
  city : String
  stateCode : String
  startDateTime : Int
  endDateTime : Int
  classificationName : String
  sort : String
  size : Nat
  genreName : Option String
deriving DecidableEq, Repr

/-- Outcome of one Ticketmaster request, seen from inside the `try` block:
`failure` is any request-level exception (network error, `raise_for_status`
on a non-2xx status, malformed JSON); `success events?` is a parsed JSON
body, where `events? = none` means `_embedded.events` is missing and
`some l` is the event list. -/
inductive ApiResult where
  | failure : ApiResult
  | success (events : Option (List TMEvent)) : ApiResult

/-- The filtering loop of `get_concerts_in_time_ranges` (lines 330-334):
for each event in response order, keep its extracted details when it falls
within the ranges.  Any exception raised by `event_falls_within_time_ranges`
or `extract_event_details` aborts the whole loop, exactly as a Python
exception would propagate out of the `for`. -/
def filter_events_in_ranges (events : List TMEvent)
    (time_ranges : List (Int × Int)) : Except TMError (List EventDetails) :=
  match events with
  | [] => Except.ok []
  | event :: rest => do
    let within ← event_falls_within_time_ranges event time_ranges
    if within then
      let event_details ← extract_event_details event
      let others ← filter_events_in_ranges rest time_ranges
      Except.ok (event_details :: others)
    else
      filter_events_in_ranges rest time_ranges

/-- `get_concerts_in_time_ranges` (simple_calendar.py lines 270-340), with
the HTTP boundary abstracted as the oracle `api`.  Returns the result list
together with the list of queries actually issued.  Empty `time_ranges`
short-circuits to `([], [])` before any query is built.  Otherwise a single
query is built from the overall min start / max end (Python `min`/`max` of a
non-empty list, written as a fold from the head), `genreName` is added only
when `genre` is truthy, and the `except Exception` handler turns any raised
error — request failure or a parse/index error from the loop — into the
empty result list. -/
def get_concerts_in_time_ranges (api : TMQuery → ApiResult)
    (city : String) (state_code : String)
    (time_ranges : List (Int × Int)) (genre : Option String) :
    List EventDetails × List TMQuery :=
  match time_ranges with
  | [] => ([], [])
  | tr0 :: trs =>
    let all_starts := (tr0 :: trs).map Prod.fst
    let all_ends := (tr0 :: trs).map Prod.snd
    let overall_start := all_starts.foldl min tr0.1
    let overall_end := all_ends.foldl max tr0.2
    let params : TMQuery := {
      apikey := TICKETMASTER_API_KEY
      city := city
      stateCode := state_code
      startDateTime := overall_start
      endDateTime := overall_end
      classificationName := "Music"
      sort := "relevance,desc"
      size := 30
      genreName := genre.bind (fun g => if g = "" then none else some g)
    }
    let result :=
      match api params with
      | ApiResult.failure => []
      | ApiResult.success none => []
      | ApiResult.success (some events) =>
        match filter_events_in_ranges events (tr0 :: trs) with
        | Except.ok l => l
        | Except.error _ => []
    (result, [params])

/-- `get_concerts` (simple_calendar.py lines 342-357): wraps the given pair
into a one-element range list.  The Python defaults `city="Toronto"`,
`state_code="ON"` are explicit arguments here; the tool entry point below
calls it without overriding them. -/
def get_concerts (api : TMQuery → ApiResult) (start_date : Int) (end_date : Int)
    (city : String) (state_code : String) : List EventDetails × List TMQuery :=
  get_concerts_in_time_ranges api city state_code [(start_date, end_date)] none

/-- Tool entry point `e100_h100_get_ticketmaster_concerts`
(simple_calendar.py lines 359-378): parses the two date-time strings
(a `ValueError` propagates to the caller) and calls `get_concerts` with its
default city `"Toronto"` and state code `"ON"`. -/
def e100_h100_get_ticketmaster_concerts (api : TMQuery → ApiResult)
    (start_time : IsoStr) (end_time : IsoStr) :
    Except TMError (List EventDetails × List TMQuery) := do
  let start_dt ← datetime_fromisoformat start_time
  let end_dt ← datetime_fromisoformat end_time
  Except.ok (get_concerts api start_dt end_dt "Toronto" "ON")

/-- One entry of a Google Calendar event's `attendees` array, restricted to
the keys the code reads or writes. -/
structure GAttendee where
  email : Option String
  displayName : Option String
  responseStatus : Option String
  organizer : Option Bool
deriving DecidableEq, Repr

/-- A Google Calendar `start` or `end` object: timed events carry
`dateTime`, all-day events carry `date`; the code writes `timeZone` next to
`dateTime` on update/create. -/
structure GTime where
  dateTime : Option String
  date : Option String
  timeZone : Option String
deriving DecidableEq, Repr

/-- One entry of `conferenceData.entryPoints`. -/
structure GConfEntry where
  entryPointType : Option String
  uri : Option String
deriving DecidableEq, Repr

/-- A Google Calendar event, restricted to the keys `simple_calendar.py`
reads or writes.  `conference_entry_points = none` covers an absent or
empty (hence falsy) `conferenceData` object; `some l` is a non-empty
`conferenceData` whose `entryPoints` list is `l` (defaulted to `[]` when
the key is missing). -/
structure GEvent where
  id : Option String
  kind : Option String
  summary : Option String
  description : Option String
  location : Option String
  htmlLink : Option String
  status : Option String
  start : Option GTime
  «end» : Option GTime
  attendees : Option (List GAttendee)
  conference_entry_points : Option (List GConfEntry)
deriving DecidableEq, Repr

/-- The record returned by `format_event_to_document`
(simple_calendar.py lines 139-149). -/
structure FormattedDoc where
  id : Option String
  kind : String
  title : String
  url : String
  content : String
  start_time : String
  end_time : String
  location : String
  attendees_count : Nat
deriving DecidableEq, Repr

/-- The per-attendee line built at lines 94-98:
`f"{name} - {status}{organizer}"` with `displayName` falling back to
`email` then `"Unknown"`, `responseStatus` defaulting to `"needsAction"`,
and the `" (Organizer)"` suffix when `organizer` is truthy. -/
def format_attendee (attendee : GAttendee) : String :=
  let name := attendee.displayName.getD (attendee.email.getD "Unknown")
  let status := attendee.responseStatus.getD "needsAction"
  let organizer := if attendee.organizer = some true then " (Organizer)" else ""
  name ++ " - " ++ status ++ organizer

/-- `format_event_to_document` (simple_calendar.py lines 74-149). -/
def format_event_to_document (event : GEvent) : FormattedDoc :=
  let summary := event.summary.getD "(No title)"
  let description := event.description.getD ""
  let location := event.location.getD ""
  let html_link := event.htmlLink.getD ""
  let start_time :=
    match event.start with
    | some st => st.dateTime.getD (st.date.getD "Not specified")
    | none => "Not specified"
  let end_time :=
    match event.«end» with
    | some en => en.dateTime.getD (en.date.getD "Not specified")
    | none => "Not specified"
  let attendees := event.attendees.getD []
  let attendees_formatted := attendees.map format_attendee
  let conference_link :=
    match (event.conference_entry_points.getD []).find?
        (fun entry => entry.entryPointType = some "video") with
    | some entry => entry.uri.getD ""
    | none => ""
  let nAttendees := attendees_formatted.length
  let status := event.status.getD "confirmed"
  let content := "# " ++ summary ++ "\n\n"
  let content := if description ≠ "" then
    content ++ "**Description:** " ++ description ++ "\n\n" else content
  let content := content ++ "**Start:** " ++ start_time ++ "\n"
  let content := content ++ "**End:** " ++ end_time ++ "\n\n"
  let content := if location ≠ "" then
    content ++ "**Location:** " ++ location ++ "\n\n" else content
  let content := if attendees_formatted ≠ [] then
    content ++ "**Attendees (" ++ toString nAttendees ++ "):**\n"
      ++ String.join (attendees_formatted.map (fun a => "  - " ++ a ++ "\n")) ++ "\n"
    else content
  let content := if conference_link ≠ "" then
    content ++ "**Video Conference:** " ++ conference_link ++ "\n\n" else content
  let content := content ++ "**Status:** " ++ status ++ "\n"
  let content := if html_link ≠ "" then
    content ++ "**Link:** " ++ html_link ++ "\n" else content
  { id := event.id
    kind := event.kind.getD "calendar#event"
    title := summary
    url := html_link
    content := content.trim
    start_time := start_time
    end_time := end_time
    location := location
    attendees_count := attendees.length }

/-- `start_time.rstrip('Z') if start_time.endswith('Z') else start_time`
(simple_calendar.py lines 462-463 and 562, 565): Python `rstrip` removes
every trailing `'Z'`. -/
def strip_trailing_z (s : String) : String :=
  if s.endsWith "Z" then s.dropRightWhile (fun c => c == 'Z') else s

/-- `email_list = [email.strip() for email in attendees.split(",")]`
followed by `[{"email": email} for email in email_list]` (lines 567-569). -/
def attendees_from_string (attendees : String) : List GAttendee :=
  (attendees.splitOn ",").map (fun email =>
    { email := some email.trim
      displayName := none
      responseStatus := none
      organizer := none })

/-- The body of `e100_h100_cohere_hackathon_update_calendar_event`
(simple_calendar.py lines 548-576) between the GET and the PUT: overlay the
caller-supplied fields on the fetched `current_event` and return the
full-document payload sent by the PUT.  A `none` parameter is a Python
`None` default, which skips its `if ... is not None` branch. -/
def update_calendar_event_payload (current_event : GEvent)
    (title : Option String) (start_time : Option String) (end_time : Option String)
    (description : Option String) (location : Option String)
    (attendees : Option String) (timezone : String) : GEvent :=
  let ev := current_event
  let ev := match title with
    | some t => { ev with summary := some t }
    | none => ev
  let ev := match description with
    | some d => { ev with description := some d }
    | none => ev
  let ev := match location with
    | some l => { ev with location := some l }
    | none => ev
  let ev := match start_time with
    | some st =>
      let startObj : GTime :=
        { dateTime := some (strip_trailing_z st), date := none, timeZone := some timezone }
      { ev with start := some startObj }
    | none => ev
  let ev := match end_time with
    | some et =>
      let endObj : GTime :=
        { dateTime := some (strip_trailing_z et), date := none, timeZone := some timezone }
      { ev with «end» := some endObj }
    | none => ev
  let ev := match attendees with
    | some a => { ev with attendees := some (attendees_from_string a) }
    | none => ev
  ev

/- Concrete inputs used to exercise the definitions in the theorems below. -/

/-- A well-formed Ticketmaster event: starts at instant 100 (day 0,
second 100), no explicit end, no embedded venue data, no classifications,
no price ranges. -/
def evOk : TMEvent :=
  { name := some "Concert A"
    url := none
    dates := { startLocalDate := some (IsoStr.valid 0)
               startLocalTime := some (IsoStr.valid 100)
               endLocalDate := none
               endLocalTime := none }
    embedded_venues := none
    classifications := []
    priceRanges := []
    sales_public := { startDateTime := none, endDateTime := none, startTBD := none } }

/-- The detail record `extract_event_details` produces for `evOk`. -/
def detOk : EventDetails :=
  { name := "Concert A"
    url := "N/A"
    concert_start := some 100
    concert_end := some 10900
    venue_name := "N/A"
    venue_address := "N/A"
    category := "N/A"
    genre := "N/A"
    subgenre := "N/A"
    price_min := NumOrNA.na
    price_max := NumOrNA.na
    currency := "N/A"
    onsale_start := "N/A"
    onsale_end := "N/A"
    sale_status := false }

/-- An event whose `dates.start.localDate` is a malformed string, so
`parse_event_datetime` raises a format error on it. -/
def evBad : TMEvent :=
  { name := some "Concert B"
    url := none
    dates := { startLocalDate := some IsoStr.malformed
               startLocalTime := none
               endLocalDate := none
               endLocalTime := none }
    embedded_venues := none
    classifications := []
    priceRanges := []
    sales_public := { startDateTime := none, endDateTime := none, startTBD := none } }

/-- An event like `evOk` whose first price range has numeric bounds but no
`currency` key. -/
def evPriceNoCurrency : TMEvent :=
  { evOk with priceRanges := [{ min := some 10, max := some 50, currency := none }] }

/-- An event like `evOk` whose `_embedded.venues` key is present but holds
an empty array. -/
def evEmptyVenues : TMEvent :=
  { evOk with embedded_venues := some [] }

/-- The detail record `extract_event_details` produces for
`evPriceNoCurrency`. -/
def detPriceNoCurrency : EventDetails :=
  { detOk with price_min := NumOrNA.num 10, price_max := NumOrNA.num 50, currency := "USD" }

/-- A Ticketmaster API oracle that always answers with the two-event page
`[evOk, evBad]`. -/
def apiOkBad : TMQuery → ApiResult :=
  fun _ => ApiResult.success (some [evOk, evBad])

/-- A Ticketmaster API oracle that always answers with the one-event page
`[evOk]`. -/
def apiOkOnly : TMQuery → ApiResult :=
  fun _ => ApiResult.success (some [evOk])

/-- A calendar event with no `summary` key (and a present `htmlLink`). -/
def gevNoSummary : GEvent :=
  { id := some "abc123"
    kind := some "calendar#event"
    summary := none
    description := none
    location := none
    htmlLink := some "https://calendar.example/evt"
    status := none
    start := none
    «end» := none
    attendees := none
    conference_entry_points := none }

/-- A calendar event with `summary` and `htmlLink` both present. -/
def gevFull : GEvent :=
  { id := some "evt42"
    kind := some "calendar#event"
    summary := some "Standup"
    description := some "daily"
    location := some "Room 1"
    htmlLink := some "https://calendar.example/evt42"
    status := some "confirmed"
    start := some { dateTime := some "2026-01-15T10:00:00", date := none, timeZone := some "America/New_York" }
    «end» := some { dateTime := some "2026-01-15T11:00:00", date := none, timeZone := some "America/New_York" }
    attendees := some [{ email := some "a@example.com", displayName := some "Ada",
                         responseStatus := some "accepted", organizer := some true }]
    conference_entry_points := none }

/- Helper lemmas about the `Except` monad and Python `min`/`max` folds. -/

theorem tmBind_ok {α β : Type} (a : α) (f : α → Except TMError β) :
    ((Except.ok a : Except TMError α) >>= f) = f a := rfl

theorem tmBind_error {α β : Type} (err : TMError) (f : α → Except TMError β) :
    ((Except.error err : Except TMError α) >>= f) = Except.error err := rfl

/-- A `foldl min` starting from `a` is below `a` and below every element of
the list (Python `min` of the non-empty list `a :: l`). -/
theorem foldl_min_le (l : List Int) :
    ∀ a : Int, l.foldl min a ≤ a ∧ ∀ x ∈ l, l.foldl min a ≤ x := by
  induction l with
  | nil =>
    intro a
    exact ⟨le_refl a, by intro x hx; cases hx⟩
  | cons b t ih =>
    intro a
    refine ⟨le_trans (ih (min a b)).1 (min_le_left a b), ?_⟩
    intro x hx
    rcases List.mem_cons.mp hx with h | h
    · subst h
      exact le_trans (ih (min a x)).1 (min_le_right a x)
    · exact (ih (min a b)).2 x h

/-- A `foldl min` starting from `a` is `a` itself or an element of the
list. -/
theorem foldl_min_mem (l : List Int) :
    ∀ a : Int, l.foldl min a = a ∨ l.foldl min a ∈ l := by
  induction l with
  | nil => intro a; exact Or.inl rfl
  | cons b t ih =>
    intro a
    have hred : (b :: t).foldl min a = t.foldl min (min a b) := rfl
    rcases ih (min a b) with h | h
    · rcases min_choice a b with hm | hm
      · exact Or.inl (by rw [hred, h, hm])
      · exact Or.inr (List.mem_cons.mpr (Or.inl (by rw [hred, h, hm])))
    · exact Or.inr (List.mem_cons.mpr (Or.inr (by rw [hred]; exact h)))

/-- A `foldl max` starting from `a` is above `a` and above every element of
the list (Python `max` of the non-empty list `a :: l`). -/
theorem foldl_max_ge (l : List Int) :
    ∀ a : Int, a ≤ l.foldl max a ∧ ∀ x ∈ l, x ≤ l.foldl max a := by
  induction l with
  | nil =>
    intro a
    exact ⟨le_refl a, by intro x hx; cases hx⟩
  | cons b t ih =>
    intro a
    refine ⟨le_trans (le_max_left a b) (ih (max a b)).1, ?_⟩
    intro x hx
    rcases List.mem_cons.mp hx with h | h
    · subst h
      exact le_trans (le_max_right a x) (ih (max a x)).1
    · exact (ih (max a b)).2 x h

/-- A `foldl max` starting from `a` is `a` itself or an element of the
list. -/
theorem foldl_max_mem (l : List Int) :
    ∀ a : Int, l.foldl max a = a ∨ l.foldl max a ∈ l := by
  induction l with
  | nil => intro a; exact Or.inl rfl
  | cons b t ih =>
    intro a
    have hred : (b :: t).foldl max a = t.foldl max (max a b) := rfl
    rcases ih (max a b) with h | h
    · rcases max_choice a b with hm | hm
      · exact Or.inl (by rw [hred, h, hm])
      · exact Or.inr (List.mem_cons.mpr (Or.inl (by rw [hred, h, hm])))
    · exact Or.inr (List.mem_cons.mpr (Or.inr (by rw [hred]; exact h)))

/-- C1: for every event whose start and end instants parse successfully and
every list of time ranges, `event_falls_within_time_ranges` returns true
iff some range `(rs, re)` in the list satisfies `rs ≤ start` and
`end ≤ re`, both comparisons inclusive; for an event whose parsed start or
end is absent it returns false. -/
theorem event_falls_within_iff_contained (event : TMEvent)
    (time_ranges : List (Int × Int)) :
    (∀ es ee, parse_event_datetime event = Except.ok (some es, some ee) →
      (event_falls_within_time_ranges event time_ranges = Except.ok true ↔
        ∃ r ∈ time_ranges, r.1 ≤ es ∧ ee ≤ r.2)) ∧
    (∀ p, parse_event_datetime event = Except.ok p → p.1 = none ∨ p.2 = none →
      event_falls_within_time_ranges event time_ranges = Except.ok false) := by
  constructor
  · intro es ee hp
    have hred : event_falls_within_time_ranges event time_ranges =
        Except.ok (time_ranges.any fun r => decide (r.1 ≤ es ∧ ee ≤ r.2)) := by
      unfold event_falls_within_time_ranges
      rw [hp, tmBind_ok]
    rw [hred]
    simp [List.any_eq_true]
  · intro p hp hnone
    obtain ⟨p1, p2⟩ := p
    have hred : event_falls_within_time_ranges event time_ranges =
        ((Except.ok (p1, p2) : Except TMError (Option Int × Option Int)) >>= fun se =>
          match se.1, se.2 with
          | some event_start, some event_end =>
            Except.ok (time_ranges.any (fun r => decide (r.1 ≤ event_start ∧ event_end ≤ r.2)))
          | _, _ => Except.ok false) := by
      unfold event_falls_within_time_ranges
      rw [hp]
    rw [hred, tmBind_ok]
    rcases hnone with h | h
    · simp only at h
      subst h
      cases p2 <;> rfl
    · simp only at h
      subst h
      cases p1 <;> rfl

/-- Witness for C1 at a concrete event and range list: `evOk` spans
`[100, 10900]`, which is contained in the single range `(0, 20000)`. -/
theorem event_falls_within_iff_contained_witness :
    event_falls_within_time_ranges evOk [((0 : Int), (20000 : Int))] = Except.ok true :=
  ((event_falls_within_iff_contained evOk [(0, 20000)]).1 100 10900 rfl).mpr
    ⟨(0, 20000), by simp, by norm_num, by norm_num⟩

/-- C3: with an empty range list the concert search returns the empty list
and issues no query, for every API oracle, city, state code and genre. -/
theorem concert_search_empty_ranges_no_query (api : TMQuery → ApiResult)
    (city state_code : String) (genre : Option String) :
    get_concerts_in_time_ranges api city state_code [] genre = ([], []) := rfl

/-- C5: when `dates.end` supplies no field, a successfully parsed event's
end instant is its start instant plus 3 hours (10800 seconds). -/
theorem parse_event_datetime_default_end_three_hours (event : TMEvent)
    (h1 : event.dates.endLocalDate = none) (h2 : event.dates.endLocalTime = none)
    (s en : Int) (hp : parse_event_datetime event = Except.ok (some s, some en)) :
    en = s + 10800 := by
  unfold parse_event_datetime at hp
  cases hd : event.dates.startLocalDate with
  | none =>
    simp only [hd] at hp
    simp at hp
  | some date_str =>
    simp only [hd] at hp
    cases hf : fromisoformat_parts date_str (event.dates.startLocalTime.getD (IsoStr.valid 0)) with
    | error e =>
      simp only [hf] at hp
      exact absurd hp (by simp)
    | ok start_datetime =>
      simp only [hf, h1, h2] at hp
      simp only [Except.ok.injEq, Prod.mk.injEq, Option.some.injEq] at hp
      omega

/-- Witness for C5: `evOk` has no `dates.end`, parses to start 100, and its
parsed end 10900 equals 100 + 10800. -/
theorem parse_event_datetime_default_end_witness :
    parse_event_datetime evOk = Except.ok (some 100, some 10900) ∧
    (10900 : Int) = 100 + 10800 :=
  ⟨rfl, parse_event_datetime_default_end_three_hours evOk rfl rfl 100 10900 rfl⟩

/-- Every detail record produced by the filtering loop comes from an event
of the response that passed the containment check and was extracted
successfully. -/
theorem mem_filter_events_in_ranges (time_ranges : List (Int × Int)) :
    ∀ (events : List TMEvent) (l : List EventDetails),
      filter_events_in_ranges events time_ranges = Except.ok l →
      ∀ d ∈ l, ∃ e ∈ events,
        event_falls_within_time_ranges e time_ranges = Except.ok true ∧
        extract_event_details e = Except.ok d := by
  intro events
  induction events with
  | nil =>
    intro l h d hd
    unfold filter_events_in_ranges at h
    simp only [Except.ok.injEq] at h
    subst h
    cases hd
  | cons e0 rest ih =>
    intro l h d hd
    unfold filter_events_in_ranges at h
    cases hw : event_falls_within_time_ranges e0 time_ranges with
    | error err =>
      rw [hw, tmBind_error] at h
      exact absurd h (by simp)
    | ok b =>
      rw [hw, tmBind_ok] at h
      cases b with
      | false =>
        simp only [Bool.false_eq_true, if_false] at h
        obtain ⟨e, he, hwin, hx⟩ := ih l h d hd
        exact ⟨e, List.mem_cons.mpr (Or.inr he), hwin, hx⟩
      | true =>
        simp only [if_true] at h
        cases hx : extract_event_details e0 with
        | error err =>
          rw [hx, tmBind_error] at h
          exact absurd h (by simp)
        | ok d0 =>
          rw [hx, tmBind_ok] at h
          cases hrest : filter_events_in_ranges rest time_ranges with
          | error err =>
            rw [hrest, tmBind_error] at h
            exact absurd h (by simp)
          | ok l0 =>
            rw [hrest, tmBind_ok] at h
            simp only [Except.ok.injEq] at h
            subst h
            rcases List.mem_cons.mp hd with h | h
            · subst h
              exact ⟨e0, List.mem_cons.mpr (Or.inl rfl), hw, hx⟩
            · obtain ⟨e, he, hwin, hx'⟩ := ih l0 hrest d h
              exact ⟨e, List.mem_cons.mpr (Or.inr he), hwin, hx'⟩

/-- If any event of the response fails to parse, the whole filtering loop
raises (the Python exception propagates out of the `for`). -/
theorem filter_events_error_of_parse_error (time_ranges : List (Int × Int)) :
    ∀ (events : List TMEvent),
      (∃ e ∈ events, ∃ err, parse_event_datetime e = Except.error err) →
      ∃ err2, filter_events_in_ranges events time_ranges = Except.error err2 := by
  intro events
  induction events with
  | nil =>
    rintro ⟨e, he, _⟩
    cases he
  | cons e0 rest ih =>
    rintro ⟨e, he, err, hperr⟩
    rcases List.mem_cons.mp he with h | hmem
    · subst h
      have hw : event_falls_within_time_ranges e time_ranges = Except.error err := by
        unfold event_falls_within_time_ranges
        rw [hperr, tmBind_error]
      refine ⟨err, ?_⟩
      unfold filter_events_in_ranges
      rw [hw, tmBind_error]
    · cases hw : event_falls_within_time_ranges e0 time_ranges with
      | error werr =>
        refine ⟨werr, ?_⟩
        unfold filter_events_in_ranges
        rw [hw, tmBind_error]
      | ok b =>
        cases b with
        | false =>
          obtain ⟨err2, h2⟩ := ih ⟨e, hmem, err, hperr⟩
          refine ⟨err2, ?_⟩
          unfold filter_events_in_ranges
          rw [hw, tmBind_ok]
          simpa using h2
        | true =>
          cases hx : extract_event_details e0 with
          | error xerr =>
            refine ⟨xerr, ?_⟩
            unfold filter_events_in_ranges
            rw [hw, tmBind_ok]
            simp only [if_true]
            rw [hx, tmBind_error]
          | ok d0 =>
            obtain ⟨err2, h2⟩ := ih ⟨e, hmem, err, hperr⟩
            refine ⟨err2, ?_⟩
            unfold filter_events_in_ranges
            rw [hw, tmBind_ok]
            simp only [if_true]
            rw [hx, tmBind_ok, h2, tmBind_error]

/-- C4: with a non-empty range list the concert search issues exactly one
query; that query's start parameter is the minimum of all range starts and
its end parameter the maximum of all range ends (below every start / above
every end, and attained by one of them); and every returned detail record
comes from a response event that passed the containment filter against the
original, uncollapsed range list. -/
theorem concert_search_single_covering_query (api : TMQuery → ApiResult)
    (city state_code : String) (genre : Option String)
    (tr0 : Int × Int) (trs : List (Int × Int)) :
    (get_concerts_in_time_ranges api city state_code (tr0 :: trs) genre).2.length = 1 ∧
    (∀ q ∈ (get_concerts_in_time_ranges api city state_code (tr0 :: trs) genre).2,
      q.city = city ∧ q.stateCode = state_code ∧
      (∀ r ∈ tr0 :: trs, q.startDateTime ≤ r.1 ∧ r.2 ≤ q.endDateTime) ∧
      (∃ r ∈ tr0 :: trs, q.startDateTime = r.1) ∧
      (∃ r ∈ tr0 :: trs, q.endDateTime = r.2)) ∧
    (∀ d ∈ (get_concerts_in_time_ranges api city state_code (tr0 :: trs) genre).1,
      ∃ q ∈ (get_concerts_in_time_ranges api city state_code (tr0 :: trs) genre).2,
      ∃ events, api q = ApiResult.success (some events) ∧
      ∃ e ∈ events,
        event_falls_within_time_ranges e (tr0 :: trs) = Except.ok true ∧
        extract_event_details e = Except.ok d) := by
  have h2 : (get_concerts_in_time_ranges api city state_code (tr0 :: trs) genre).2 =
      [{ apikey := TICKETMASTER_API_KEY
         city := city
         stateCode := state_code
         startDateTime := ((tr0 :: trs).map Prod.fst).foldl min tr0.1
         endDateTime := ((tr0 :: trs).map Prod.snd).foldl max tr0.2
         classificationName := "Music"
         sort := "relevance,desc"
         size := 30
         genreName := genre.bind (fun g => if g = "" then none else some g) }] := rfl
  refine ⟨by rw [h2]; rfl, ?_, ?_⟩
  · intro q hq
    rw [h2, List.mem_singleton] at hq
    subst hq
    refine ⟨rfl, rfl, ?_, ?_, ?_⟩
    · intro r hr
      constructor
      · exact (foldl_min_le ((tr0 :: trs).map Prod.fst) tr0.1).2 r.1
          (List.mem_map.mpr ⟨r, hr, rfl⟩)
      · exact (foldl_max_ge ((tr0 :: trs).map Prod.snd) tr0.2).2 r.2
          (List.mem_map.mpr ⟨r, hr, rfl⟩)
    · rcases foldl_min_mem ((tr0 :: trs).map Prod.fst) tr0.1 with h | h
      · exact ⟨tr0, List.mem_cons.mpr (Or.inl rfl), h⟩
      · obtain ⟨r, hr, hfst⟩ := List.mem_map.mp h
        exact ⟨r, hr, hfst.symm⟩
    · rcases foldl_max_mem ((tr0 :: trs).map Prod.snd) tr0.2 with h | h
      · exact ⟨tr0, List.mem_cons.mpr (Or.inl rfl), h⟩
      · obtain ⟨r, hr, hsnd⟩ := List.mem_map.mp h
        exact ⟨r, hr, hsnd.symm⟩
  · intro d hd
    set params : TMQuery :=
      { apikey := TICKETMASTER_API_KEY
        city := city
        stateCode := state_code
        startDateTime := ((tr0 :: trs).map Prod.fst).foldl min tr0.1
        endDateTime := ((tr0 :: trs).map Prod.snd).foldl max tr0.2
        classificationName := "Music"
        sort := "relevance,desc"
        size := 30
        genreName := genre.bind (fun g => if g = "" then none else some g) } with hparams
    have h1 : (get_concerts_in_time_ranges api city state_code (tr0 :: trs) genre).1 =
        (match api params with
         | ApiResult.failure => []
         | ApiResult.success none => []
         | ApiResult.success (some events) =>
           match filter_events_in_ranges events (tr0 :: trs) with
           | Except.ok l => l
           | Except.error _ => []) := rfl
    rw [h1] at hd
    cases hapi : api params with
    | failure =>
      rw [hapi] at hd
      cases hd
    | success events? =>
      cases events? with
      | none =>
        rw [hapi] at hd
        cases hd
      | some events =>
        rw [hapi] at hd
        have hd' : d ∈ (match filter_events_in_ranges events (tr0 :: trs) with
          | Except.ok l => l
          | Except.error _ => []) := hd
        cases hfil : filter_events_in_ranges events (tr0 :: trs) with
        | error err =>
          rw [hfil] at hd'
          cases hd'
        | ok l =>
          rw [hfil] at hd'
          have hd := hd'
          obtain ⟨e, he, hwin, hx⟩ :=
            mem_filter_events_in_ranges (tr0 :: trs) events l hfil d hd
          exact ⟨params, by rw [h2, hparams]; exact List.mem_singleton.mpr rfl,
            events, hapi, e, he, hwin, hx⟩

/-- C2 counterexample: in the response `[evOk, evBad]`, `evOk` passes the
containment filter for the range `(0, 20000)` and extracts to `detOk`,
while parsing `evBad` raises a format error; the claim says `evOk` is still
returned, but the search result is empty — the exception from the loop is
caught by the orchestrator's catch-all handler, which discards the whole
page. -/
theorem concert_search_format_error_drops_all_cex :
    event_falls_within_time_ranges evOk [((0 : Int), (20000 : Int))] = Except.ok true ∧
    extract_event_details evOk = Except.ok detOk ∧
    parse_event_datetime evBad = Except.error TMError.formatError ∧
    (get_concerts_in_time_ranges apiOkBad "Toronto" "ON"
      [((0 : Int), (20000 : Int))] none).1 = [] :=
  ⟨rfl, rfl, rfl, rfl⟩

/-- C2 amended: when parsing one event's date/time strings raises a format
error during the concert search, the exception escapes the per-event loop
and is caught by the orchestrator's catch-all handler, which returns the
empty list — every event of the same API response is excluded, not only
the failing one; the failure is never surfaced to the caller. -/
theorem concert_search_format_error_empties_result (api : TMQuery → ApiResult)
    (city state_code : String) (genre : Option String)
    (tr0 : Int × Int) (trs : List (Int × Int)) (q : TMQuery)
    (hq : q ∈ (get_concerts_in_time_ranges api city state_code (tr0 :: trs) genre).2)
    (events : List TMEvent) (hapi : api q = ApiResult.success (some events))
    (e : TMEvent) (he : e ∈ events) (err : TMError)
    (hperr : parse_event_datetime e = Except.error err) :
    (get_concerts_in_time_ranges api city state_code (tr0 :: trs) genre).1 = [] := by
  obtain ⟨err2, hfil⟩ :=
    filter_events_error_of_parse_error (tr0 :: trs) events ⟨e, he, err, hperr⟩
  have h2 : (get_concerts_in_time_ranges api city state_code (tr0 :: trs) genre).2 =
      [{ apikey := TICKETMASTER_API_KEY
         city := city
         stateCode := state_code
         startDateTime := ((tr0 :: trs).map Prod.fst).foldl min tr0.1
         endDateTime := ((tr0 :: trs).map Prod.snd).foldl max tr0.2
         classificationName := "Music"
         sort := "relevance,desc"
         size := 30
         genreName := genre.bind (fun g => if g = "" then none else some g) }] := rfl
  rw [h2, List.mem_singleton] at hq
  rw [hq] at hapi
  have h1 : (get_concerts_in_time_ranges api city state_code (tr0 :: trs) genre).1 =
      (match api
        { apikey := TICKETMASTER_API_KEY
          city := city
          stateCode := state_code
          startDateTime := ((tr0 :: trs).map Prod.fst).foldl min tr0.1
          endDateTime := ((tr0 :: trs).map Prod.snd).foldl max tr0.2
          classificationName := "Music"
          sort := "relevance,desc"
          size := 30
          genreName := genre.bind (fun g => if g = "" then none else some g) } with
       | ApiResult.failure => []
       | ApiResult.success none => []
       | ApiResult.success (some events) =>
         match filter_events_in_ranges events (tr0 :: trs) with
         | Except.ok l => l
         | Except.error _ => []) := rfl
  rw [h1, hapi]
  show (match filter_events_in_ranges events (tr0 :: trs) with
        | Except.ok l => l
        | Except.error _ => []) = []
  rw [hfil]

/-- Witness for C2's amended theorem at the concrete scenario of the
counterexample: the page `[evOk, evBad]` yields an empty result. -/
theorem concert_search_format_error_empties_result_witness :
    (get_concerts_in_time_ranges apiOkBad "Toronto" "ON"
      [((0 : Int), (20000 : Int))] none).1 = [] :=
  concert_search_format_error_empties_result apiOkBad "Toronto" "ON" none
    (0, 20000) []
    { apikey := TICKETMASTER_API_KEY
      city := "Toronto"
      stateCode := "ON"
      startDateTime := (([((0 : Int), (20000 : Int))]).map Prod.fst).foldl min 0
      endDateTime := (([((0 : Int), (20000 : Int))]).map Prod.snd).foldl max 20000
      classificationName := "Music"
      sort := "relevance,desc"
      size := 30
      genreName := none }
    (List.mem_singleton.mpr rfl)
    [evOk, evBad] rfl
    evBad (List.mem_cons.mpr (Or.inr (List.mem_singleton.mpr rfl)))
    TMError.formatError rfl

/-- Witness for C4 at a concrete call: one range `(0, 20000)`, an oracle
returning the single event `evOk`, whose details `detOk` are returned. -/
theorem concert_search_single_covering_query_witness :
    ∃ q ∈ (get_concerts_in_time_ranges apiOkOnly "Toronto" "ON" [((0 : Int), (20000 : Int))] none).2,
    ∃ events, apiOkOnly q = ApiResult.success (some events) ∧
    ∃ e ∈ events,
      event_falls_within_time_ranges e [((0 : Int), (20000 : Int))] = Except.ok true ∧
      extract_event_details e = Except.ok detOk :=
  (concert_search_single_covering_query apiOkOnly "Toronto" "ON" none (0, 20000) []).2.2
    detOk (by rw [show (get_concerts_in_time_ranges apiOkOnly "Toronto" "ON"
      [((0 : Int), (20000 : Int))] none).1 = [detOk] from rfl]; exact List.mem_singleton.mpr rfl)

/-- C6: each field of the update payload whose parameter is `None` is
written back unchanged from the fetched current event, and a supplied
`location` is written; in particular a call supplying only `location`
leaves summary, start, end, description and attendees exactly as stored. -/
theorem update_event_preserves_unspecified_fields (current_event : GEvent)
    (title start_time end_time description location attendees : Option String)
    (timezone : String) :
    (title = none →
      (update_calendar_event_payload current_event title start_time end_time
        description location attendees timezone).summary = current_event.summary) ∧
    (start_time = none →
      (update_calendar_event_payload current_event title start_time end_time
        description location attendees timezone).start = current_event.start) ∧
    (end_time = none →
      (update_calendar_event_payload current_event title start_time end_time
        description location attendees timezone).«end» = current_event.«end») ∧
    (description = none →
      (update_calendar_event_payload current_event title start_time end_time
        description location attendees timezone).description = current_event.description) ∧
    (attendees = none →
      (update_calendar_event_payload current_event title start_time end_time
        description location attendees timezone).attendees = current_event.attendees) ∧
    (location = none →
      (update_calendar_event_payload current_event title start_time end_time
        description location attendees timezone).location = current_event.location) ∧
    (∀ l, location = some l →
      (update_calendar_event_payload current_event title start_time end_time
        description location attendees timezone).location = some l) := by
  cases title <;> cases start_time <;> cases end_time <;> cases description <;>
    cases location <;> cases attendees <;>
    simp [update_calendar_event_payload]

/-- Witness for C6: updating `gevFull` with only a location supplied keeps
summary, start, end, description and attendees as stored and writes the new
location. -/
theorem update_event_preserves_unspecified_fields_witness :
    (update_calendar_event_payload gevFull none none none none (some "Room 2") none
      "America/New_York").summary = gevFull.summary ∧
    (update_calendar_event_payload gevFull none none none none (some "Room 2") none
      "America/New_York").start = gevFull.start ∧
    (update_calendar_event_payload gevFull none none none none (some "Room 2") none
      "America/New_York").«end» = gevFull.«end» ∧
    (update_calendar_event_payload gevFull none none none none (some "Room 2") none
      "America/New_York").description = gevFull.description ∧
    (update_calendar_event_payload gevFull none none none none (some "Room 2") none
      "America/New_York").attendees = gevFull.attendees ∧
    (update_calendar_event_payload gevFull none none none none (some "Room 2") none
      "America/New_York").location = some "Room 2" :=
  ⟨(update_event_preserves_unspecified_fields gevFull none none none none (some "Room 2")
      none "America/New_York").1 rfl,
   (update_event_preserves_unspecified_fields gevFull none none none none (some "Room 2")
      none "America/New_York").2.1 rfl,
   (update_event_preserves_unspecified_fields gevFull none none none none (some "Room 2")
      none "America/New_York").2.2.1 rfl,
   (update_event_preserves_unspecified_fields gevFull none none none none (some "Room 2")
      none "America/New_York").2.2.2.1 rfl,
   (update_event_preserves_unspecified_fields gevFull none none none none (some "Room 2")
      none "America/New_York").2.2.2.2.1 rfl,
   (update_event_preserves_unspecified_fields gevFull none none none none (some "Room 2")
      none "America/New_York").2.2.2.2.2.2 "Room 2" rfl⟩

/-- C7 counterexample: for a calendar event with no `summary` key the
formatted document's title is the `"(No title)"` default, which is not the
input's (absent) summary, so the round-trip claim fails as stated for every
calendar raw event. -/
theorem format_event_round_trip_cex :
    gevNoSummary.summary = none ∧
    (format_event_to_document gevNoSummary).title = "(No title)" ∧
    ¬ gevNoSummary.summary = some (format_event_to_document gevNoSummary).title :=
  ⟨rfl, rfl, fun h => Option.noConfusion h⟩

/-- C7 amended: for every calendar raw event, the formatted document's `id`
equals the input's `id`; and when `summary` and `htmlLink` are present, its
`title` equals the input's `summary` and its `url` equals the input's
`htmlLink`. -/
theorem format_event_round_trip (event : GEvent) :
    (format_event_to_document event).id = event.id ∧
    (∀ s, event.summary = some s → (format_event_to_document event).title = s) ∧
    (∀ u, event.htmlLink = some u → (format_event_to_document event).url = u) := by
  refine ⟨rfl, ?_, ?_⟩
  · intro s hs
    simp [format_event_to_document, hs]
  · intro u hu
    simp [format_event_to_document, hu]

/-- Witness for C7's amended theorem on `gevFull`. -/
theorem format_event_round_trip_witness :
    (format_event_to_document gevFull).id = gevFull.id ∧
    (format_event_to_document gevFull).title = "Standup" ∧
    (format_event_to_document gevFull).url = "https://calendar.example/evt42" :=
  ⟨(format_event_round_trip gevFull).1,
   (format_event_round_trip gevFull).2.1 "Standup" rfl,
   (format_event_round_trip gevFull).2.2 "https://calendar.example/evt42" rfl⟩

/-- C8: when extraction succeeds, an event with no `priceRanges` entry
yields `"N/A"` for price min, price max and currency; an event whose first
price range lacks a `currency` key yields the `"USD"` default. -/
theorem extract_price_fields_spec (event : TMEvent) (d : EventDetails)
    (h : extract_event_details event = Except.ok d) :
    (event.priceRanges = [] →
      d.price_min = NumOrNA.na ∧ d.price_max = NumOrNA.na ∧ d.currency = "N/A") ∧
    (∀ pr rest, event.priceRanges = pr :: rest → pr.currency = none →
      d.currency = "USD") := by
  unfold extract_event_details at h
  cases hp : parse_event_datetime event with
  | error e =>
    rw [hp, tmBind_error] at h
    exact absurd h (by simp)
  | ok se =>
    rw [hp, tmBind_ok] at h
    cases hv : event.embedded_venues with
    | none =>
      simp only [hv, tmBind_ok, Except.ok.injEq] at h
      subst h
      constructor
      · intro hpr
        simp [hpr]
      · intro pr rest hpr hcur
        simp [hpr, hcur]
    | some venues =>
      cases venues with
      | nil =>
        simp only [hv, tmBind_error] at h
        exact absurd h (by simp)
      | cons v vs =>
        simp only [hv, tmBind_ok, Except.ok.injEq] at h
        subst h
        constructor
        · intro hpr
          simp [hpr]
        · intro pr rest hpr hcur
          simp [hpr, hcur]

/-- Witness for C8: `evOk` has no price range and extracts to all-`"N/A"`
price fields; `evPriceNoCurrency` has a currency-less price range and
extracts with currency `"USD"`. -/
theorem extract_price_fields_witness :
    (detOk.price_min = NumOrNA.na ∧ detOk.price_max = NumOrNA.na ∧
      detOk.currency = "N/A") ∧
    extract_event_details evPriceNoCurrency = Except.ok detPriceNoCurrency ∧
    detPriceNoCurrency.currency = "USD" :=
  ⟨(extract_price_fields_spec evOk detOk rfl).1 rfl,
   rfl,
   (extract_price_fields_spec evPriceNoCurrency detPriceNoCurrency rfl).2
     { min := some 10, max := some 50, currency := none } [] rfl rfl⟩

/-- C9: whenever `_embedded.venues` is present, `extract_event_details`
indexes its first element unconditionally — a present-but-empty list makes
extraction fail with an index error (given the date parse itself succeeds,
which runs first) — while the `"N/A"` venue branch runs only when the key
is absent. -/
theorem extract_venues_indexes_first (event : TMEvent) :
    (∀ se, parse_event_datetime event = Except.ok se →
      event.embedded_venues = some [] →
      extract_event_details event = Except.error TMError.indexError) ∧
    (∀ d, event.embedded_venues = none →
      extract_event_details event = Except.ok d →
      d.venue_name = "N/A" ∧ d.venue_address = "N/A") := by
  constructor
  · intro se hp hv
    unfold extract_event_details
    rw [hp, tmBind_ok]
    simp only [hv]
    rfl
  · intro d hv h
    unfold extract_event_details at h
    cases hp : parse_event_datetime event with
    | error e =>
      rw [hp, tmBind_error] at h
      exact absurd h (by simp)
    | ok se =>
      rw [hp, tmBind_ok] at h
      simp only [hv, tmBind_ok, Except.ok.injEq] at h
      subst h
      exact ⟨rfl, rfl⟩

/-- Witness for C9: `evEmptyVenues` (venues key present, empty list) makes
extraction raise the index error; `evOk` (venues key absent) extracts with
the `"N/A"` venue sentinels. -/
theorem extract_venues_indexes_first_witness :
    extract_event_details evEmptyVenues = Except.error TMError.indexError ∧
    detOk.venue_name = "N/A" ∧ detOk.venue_address = "N/A" :=
  ⟨(extract_venues_indexes_first evEmptyVenues).1 (some 100, some 10900) rfl rfl,
   (extract_venues_indexes_first evOk).2 detOk rfl rfl⟩

/-- C10: for every API oracle and every pair of parseable start/end
strings, the exposed concert tool runs the search with city `"Toronto"`,
state code `"ON"` and exactly the one time range `(start, end)`; its single
issued query carries those fixed values and the given window. -/
theorem get_ticketmaster_concerts_fixed_city_state (api : TMQuery → ApiResult)
    (start_time end_time : IsoStr) (s e : Int)
    (hs : datetime_fromisoformat start_time = Except.ok s)
    (he : datetime_fromisoformat end_time = Except.ok e) :
    e100_h100_get_ticketmaster_concerts api start_time end_time =
      Except.ok (get_concerts_in_time_ranges api "Toronto" "ON" [(s, e)] none) ∧
    ∀ out, e100_h100_get_ticketmaster_concerts api start_time end_time = Except.ok out →
      out.2 = [{ apikey := TICKETMASTER_API_KEY
                 city := "Toronto"
                 stateCode := "ON"
                 startDateTime := s
                 endDateTime := e
                 classificationName := "Music"
                 sort := "relevance,desc"
                 size := 30
                 genreName := none }] := by
  have hmain : e100_h100_get_ticketmaster_concerts api start_time end_time =
      Except.ok (get_concerts_in_time_ranges api "Toronto" "ON" [(s, e)] none) := by
    unfold e100_h100_get_ticketmaster_concerts
    rw [hs, tmBind_ok, he, tmBind_ok]
    rfl
  refine ⟨hmain, ?_⟩
  intro out hout
  rw [hmain] at hout
  have hq : out = get_concerts_in_time_ranges api "Toronto" "ON" [(s, e)] none := by
    simpa using hout.symm
  subst hq
  simp [get_concerts_in_time_ranges, min_self, max_self]

/-- Witness for C10 at a concrete oracle and concrete parseable strings. -/
theorem get_ticketmaster_concerts_fixed_city_state_witness :
    e100_h100_get_ticketmaster_concerts apiOkOnly (IsoStr.valid 0) (IsoStr.valid 20000) =
      Except.ok (get_concerts_in_time_ranges apiOkOnly "Toronto" "ON"
        [((0 : Int), (20000 : Int))] none) :=
  (get_ticketmaster_concerts_fixed_city_state apiOkOnly (IsoStr.valid 0)
    (IsoStr.valid 20000) 0 20000 rfl rfl).1
